import Mathlib

/-!
Shallow embedding of the offline submission queue implemented in
src/components/form-layout.tsx of the PWA demo repository.

The component state (React useState hooks) is modelled by the structure
AppState below; each event handler of the component becomes a pure state
transformer. Two aspects of the source are modelled as explicit inputs:
the clock Date.now() (a Nat argument, ms since epoch) and whether a
localStorage.setItem call succeeds (a Bool argument; the source wraps the
write in try/catch and logs on failure).

A crucial point of fidelity: syncOfflineSubmissions (lines 163-209) is a
closure over the render-time value of the offlineSubmissions state. Every
occurrence of offlineSubmissions inside its body — the pending filter at
line 164, the three map calls at lines 173, 183 and 193, and the filter in
the 3-second setTimeout callback at line 205 — reads that stale snapshot,
not the current state, because the setState calls pass plain values rather
than functional updates. The model therefore threads the snapshot (called
snap) separately from the evolving state.
-/

namespace PwaForm

/-- Status of an offline submission (form-layout.tsx line 35). -/
inductive Status where
  | pending
  | syncing
  | synced
  | failed
deriving DecidableEq

/-- The FormData record of the component (lines 11-19). -/
structure FormData where
  firstName : String
  lastName : String
  email : String
  address : String
  city : String
  state : String
  postalCode : String
deriving DecidableEq

/-- An OfflineSubmission record (lines 31-36). -/
structure Submission where
  id : String
  data : FormData
  timestamp : Nat
  status : Status
deriving DecidableEq

/-- Toast kind (line 27). -/
inductive ToastType where
  | success
  | error
  | info
  | offline
deriving DecidableEq

/-- A Toast record (lines 25-29). -/
structure Toast where
  id : String
  type : ToastType
  message : String
deriving DecidableEq

/-- Callbacks the component schedules with setTimeout: the 5-second toast
expiry of addToast (lines 109-111) and the 3-second removal of synced
submissions (lines 204-208). The purge callback closes over the stale
snapshot of offlineSubmissions, so the snapshot is part of the action. -/
inductive TimerAction where
  | expireToast (id : String)
  | purgeSynced (snap : List Submission)
deriving DecidableEq

/-- The component state: the useState hooks of FormLayout (lines 39-53),
plus the localStorage slot under the key offlineSubmissions (stored), the
console error log, and the pending setTimeout callbacks with their due
times. -/
structure AppState where
  formData : FormData
  errors : List (String × String)
  isSubmitting : Bool
  toasts : List Toast
  isOnline : Bool
  offlineSubmissions : List Submission
  stored : Option (List Submission)
  errorLog : List String
  timers : List (Nat × TimerAction)
deriving DecidableEq

/-- The all-empty FormData used to initialize and reset the form
(lines 39-47, 230-238, 256-264, 597-605). -/
def emptyFormData : FormData :=
  { firstName := "", lastName := "", email := "", address := "", city := "",
    state := "", postalCode := "" }

/-- Initial component state: empty form, no errors, no toasts, online,
empty queue, nothing persisted yet. -/
def initialState : AppState :=
  { formData := emptyFormData, errors := [], isSubmitting := false,
    toasts := [], isOnline := true, offlineSubmissions := [],
    stored := none, errorLog := [], timers := [] }

/-- JS String.prototype.trim, used at lines 117, 121 and 125: strip
leading and trailing whitespace. Defined over the character list. -/
def jsTrim (s : String) : String :=
  String.mk (((s.toList.dropWhile Char.isWhitespace).reverse.dropWhile Char.isWhitespace).reverse)

/-- Character class of the email pattern at line 127: anything except
whitespace and the at sign. -/
def isMailChar (c : Char) : Bool :=
  !c.isWhitespace && !(c == '@')

/-- True when the list has a dot at a position that is neither first nor
last. -/
def hasInnerDot (d : List Char) : Bool :=
  (List.range d.length).any fun i =>
    decide (0 < i) && decide (i + 1 < d.length) && (d[i]? == some '.')

/-- Decides the anchored test of /^[^\s@]+@[^\s@]+\.[^\s@]+$/ from line 127.
A matching string splits as a ++ "@" ++ d where a is a nonempty run of
non-whitespace non-at characters, d likewise contains no whitespace and no
at sign (so the string has exactly one at sign), and d has a dot that is
neither its first nor its last character — the class itself matches dots,
so the parts around the chosen dot may contain further dots. -/
def emailRegexMatch (s : String) : Bool :=
  let cs := s.toList
  let a := cs.takeWhile fun c => !(c == '@')
  let d := cs.drop (a.length + 1)
  decide (0 < a.length) && a.all isMailChar && decide (a.length < cs.length) &&
    d.all isMailChar && hasInnerDot d

/-- Model of validateForm (lines 114-133). The result is the newErrors
object as an insertion-ordered list of field/message pairs; the boolean
result Object.keys(newErrors).length === 0 of the source corresponds to
this list being empty. JS String.prototype.trim is modelled by
jsTrim. -/
def validateForm (fd : FormData) : List (String × String) :=
  (if jsTrim fd.firstName = "" then [("firstName", "First name is required")] else []) ++
  (if jsTrim fd.lastName = "" then [("lastName", "Last name is required")] else []) ++
  (if jsTrim fd.email = "" then [("email", "Email is required")]
   else if !(emailRegexMatch fd.email) then [("email", "Please enter a valid email")]
   else [])

/-- Model of saveOfflineSubmissions (lines 95-101): attempt
localStorage.setItem of the whole list; ok says whether the write throws.
On failure the error is logged and nothing else happens — the in-memory
state is untouched either way. -/
def saveOfflineSubmissions (ok : Bool) (subs : List Submission) (σ : AppState) : AppState :=
  if ok then { σ with stored := some subs }
  else { σ with errorLog := σ.errorLog ++ ["Error saving offline submissions"] }

/-- Model of addToast (lines 103-112) at clock reading now: the toast id is
Date.now().toString(), the toast is appended, and a removal of exactly that
id is scheduled 5000 ms later. -/
def addToast (now : Nat) (ty : ToastType) (msg : String) (σ : AppState) : AppState :=
  { σ with
    toasts := σ.toasts ++ [{ id := toString now, type := ty, message := msg }],
    timers := σ.timers ++ [(now + 5000, TimerAction.expireToast (toString now))] }

/-- Firing a scheduled setTimeout callback. Toast expiry (lines 109-111)
filters out every toast carrying the captured id. The synced purge
(lines 204-208) recomputes the queue from the stale snapshot captured by
the closure, keeping its non-synced entries, and persists the result. -/
def fireTimer (ok : Bool) : TimerAction → AppState → AppState
  | TimerAction.expireToast id, σ =>
      { σ with toasts := σ.toasts.filter fun t => !(t.id == id) }
  | TimerAction.purgeSynced snap, σ =>
      let remaining := snap.filter fun s => !(s.status == Status.synced)
      saveOfflineSubmissions ok remaining { σ with offlineSubmissions := remaining }

/-- Model of saveOfflineSubmission (lines 148-161) at clock reading now:
build the record with id Date.now().toString(), timestamp Date.now() and
status pending, append it, set the state and persist; return the new state
and the id. -/
def saveOfflineSubmission (ok : Bool) (now : Nat) (data : FormData) (σ : AppState) :
    AppState × String :=
  let sub : Submission :=
    { id := toString now, data := data, timestamp := now, status := Status.pending }
  let updatedSubmissions := σ.offlineSubmissions ++ [sub]
  (saveOfflineSubmissions ok updatedSubmissions
     { σ with offlineSubmissions := updatedSubmissions }, sub.id)

/-- A sequence of enqueue operations, each performed on the state left by
the previous one (each user submit event sees the then-current state). -/
def enqueueAll (ok : Bool) : List (Nat × FormData) → AppState → AppState
  | [], σ => σ
  | p :: rest, σ => enqueueAll ok rest (saveOfflineSubmission ok p.1 p.2 σ).1

/-- The status update written by the sync loop (lines 173-175, 183-185,
193-195): map over the STALE snapshot, replacing the status of the entry
with the given id. -/
def statusUpd (snap : List Submission) (id : String) (st : Status) : List Submission :=
  snap.map fun s => if s.id == id then { s with status := st } else s

/-- One iteration of the for-loop of syncOfflineSubmissions (lines 170-201)
for submission sub: write the syncing update computed from the stale
snapshot, await the simulated API call (which always resolves, so the catch
branch at lines 191-200 is unreachable), write the synced update computed
from the same stale snapshot, and post the success toast. -/
def syncStep (snap : List Submission) (ok : Bool) (now : Nat) (sub : Submission)
    (σ : AppState) : AppState :=
  let upd := statusUpd snap sub.id Status.syncing
  let σ1 := saveOfflineSubmissions ok upd { σ with offlineSubmissions := upd }
  let fin := statusUpd snap sub.id Status.synced
  let σ2 := saveOfflineSubmissions ok fin { σ1 with offlineSubmissions := fin }
  addToast now ToastType.success "Offline submission synced successfully!" σ2

/-- The for-loop of syncOfflineSubmissions over the pending snapshot; the
k-th Date.now() reading of the run is times k. -/
def syncLoop (snap : List Submission) (ok : Bool) (times : Nat → Nat) :
    List Submission → Nat → AppState → AppState
  | [], _, σ => σ
  | sub :: rest, k, σ => syncLoop snap ok times rest (k + 1) (syncStep snap ok (times k) sub σ)

/-- Model of syncOfflineSubmissions (lines 163-209). The closure snapshot
snap is the offlineSubmissions value at the render that created the
invocation; pending entries are filtered from it; with zero pending the
function returns before doing anything. Otherwise it posts the info toast,
runs the loop, and schedules the purge of synced entries — whose callback
captures the same stale snapshot — 3000 ms after the loop finishes. -/
def syncOfflineSubmissions (ok : Bool) (times : Nat → Nat) (σ : AppState) : AppState :=
  let snap := σ.offlineSubmissions
  let pendingSubmissions := snap.filter fun s => s.status == Status.pending
  if pendingSubmissions.length = 0 then σ
  else
    let σ1 := addToast (times 0) ToastType.info
      ("Syncing " ++ toString pendingSubmissions.length ++ " offline submission(s)...") σ
    let σ2 := syncLoop snap ok times pendingSubmissions 1 σ1
    { σ2 with
      timers := σ2.timers ++
        [(times (pendingSubmissions.length + 1) + 3000, TimerAction.purgeSynced snap)] }

/-- Ids of the submissions one syncOfflineSubmissions invocation iterates
over: the pending entries of the snapshot it reads (lines 164 and 170).
Membership in the loop depends only on the snapshot. -/
def syncProcessedIds (snap : List Submission) : List String :=
  (snap.filter fun s => s.status == Status.pending).map fun s => s.id

/-- Model of handleSubmit (lines 211-278). The validation errors are
computed and stored first; on failure an error toast is posted and the
handler returns. Otherwise, offline: enqueue, post the offline toast,
reset the form. Online: post the info toast, await the simulated call,
then succeed or fail according to the Math.random draw (isSuccess). The
clock readings of the run are times 0, times 1, ... in order. -/
def handleSubmit (ok : Bool) (times : Nat → Nat) (isSuccess : Bool) (σ0 : AppState) :
    AppState :=
  let errs := validateForm σ0.formData
  let σ := { σ0 with errors := errs }
  if errs = [] then
    let σ := { σ with isSubmitting := true }
    if !σ.isOnline then
      let σ1 := (saveOfflineSubmission ok (times 0) σ.formData σ).1
      let σ2 := addToast (times 1) ToastType.offline
        "Form saved offline! Will sync when connection returns." σ1
      { σ2 with formData := emptyFormData, isSubmitting := false }
    else
      let σ1 := addToast (times 0) ToastType.info "Submitting form..." σ
      if isSuccess then
        let σ2 := addToast (times 1) ToastType.success
          "Form submitted successfully! Welcome to the workspace!" σ1
        { σ2 with formData := emptyFormData, isSubmitting := false }
      else
        let σ2 := addToast (times 1) ToastType.error
          "Submission failed. Please try again." σ1
        { σ2 with isSubmitting := false }
  else
    addToast (times 0) ToastType.error "Please fix the errors in the form" σ

/-- Model of the Clear Form button handler (lines 596-607): reset the form
fields and the error mapping, touch nothing else. -/
def clearForm (σ : AppState) : AppState :=
  { σ with formData := emptyFormData, errors := [] }

/-- Status of the submission with the given id, if present. -/
def statusOf (subs : List Submission) (id : String) : Option Status :=
  (subs.find? fun s => s.id == id).map fun s => s.status

/-- Sample valid form record used by the concrete scenarios. -/
def sampleData : FormData :=
  { firstName := "A", lastName := "B", email := "a@b.co", address := "",
    city := "", state := "", postalCode := "" }

/-- The submission record an enqueue at clock reading now builds
(lines 149-154): id and timestamp from Date.now(), status pending. -/
def pendingSub (now : Nat) (d : FormData) : Submission :=
  { id := toString now, data := d, timestamp := now, status := Status.pending }

/-- The toast record addToast builds at clock reading now (line 105). -/
def mkToast (now : Nat) (ty : ToastType) (msg : String) : Toast :=
  { id := toString now, type := ty, message := msg }

/-- Clock supply for concrete runs: reading k of a run is b + k. -/
def clockFrom (b : Nat) : Nat → Nat := fun k => b + k

/-- First sample pending submission of the concrete sync scenarios. -/
def subA : Submission := { id := "1", data := sampleData, timestamp := 1, status := Status.pending }

/-- Second sample pending submission of the concrete sync scenarios. -/
def subB : Submission := { id := "2", data := sampleData, timestamp := 2, status := Status.pending }

/-- Store holding the two pending submissions of the round-trip scenario. -/
def twoPending : AppState :=
  { initialState with offlineSubmissions := [subA, subB], stored := some [subA, subB] }

/-- One full run of syncOfflineSubmissions over the two-pending store, with
clock readings 100, 101, 102, ... and every persistence write succeeding. -/
def roundTripRun : AppState := syncOfflineSubmissions true (clockFrom 100) twoPending

/-- State of the round-trip run right after its initial info toast. -/
def preToastState : AppState :=
  addToast 100 ToastType.info "Syncing 2 offline submission(s)..." twoPending

/-- State of the round-trip run after the first loop iteration: obtained by
unfolding syncOfflineSubmissions and syncLoop once. -/
def afterFirstIter : AppState := syncStep [subA, subB] true 101 subA preToastState

/-- Store whose only submission has status failed: nothing is pending. -/
def failedOnly : AppState :=
  { initialState with offlineSubmissions := [{ subA with status := Status.failed }] }

/-- Component state ready for an offline submit: valid data, offline. -/
def offlineReady : AppState :=
  { initialState with formData := sampleData, isOnline := false }

/-- Valid record except for an empty first name. -/
def missingFirst : FormData := { sampleData with firstName := "" }

/-- Component state holding the missing-first-name record, online. -/
def missingFirstState : AppState := { initialState with formData := missingFirst }

/-- Valid record except that the first name is a single space: non-empty
but blank after trimming. -/
def wsFirst : FormData := { sampleData with firstName := " " }

/-- Two identical toasts posted at the same millisecond reading 7: both
carry the id "7". -/
def sameMsToasts : AppState :=
  addToast 7 ToastType.info "x" (addToast 7 ToastType.info "x" initialState)

/-- Persisting touches neither the queue nor the toasts, whether or not the
localStorage write succeeds. -/
theorem saveOfflineSubmissions_frame (ok : Bool) (subs : List Submission) (σ : AppState) :
    (saveOfflineSubmissions ok subs σ).offlineSubmissions = σ.offlineSubmissions ∧
    (saveOfflineSubmissions ok subs σ).toasts = σ.toasts := by
  cases ok <;> exact ⟨rfl, rfl⟩

/-- The queue after a sequence of enqueue operations is the old queue plus
one pending record per operation, in order. -/
theorem enqueueAll_offlineSubmissions (ok : Bool) (inps : List (Nat × FormData)) (σ : AppState) :
    (enqueueAll ok inps σ).offlineSubmissions
      = σ.offlineSubmissions ++ inps.map (fun p => pendingSub p.1 p.2) := by
  induction inps generalizing σ with
  | nil => simp [enqueueAll]
  | cons p rest ih =>
      simp [enqueueAll, ih, saveOfflineSubmission, pendingSub,
        (saveOfflineSubmissions_frame ok _ _).1]

/-- C1. The round-trip claim fails on the code: running
syncOfflineSubmissions to completion on a store holding two pending
submissions leaves the first with status pending, not synced — every status
write maps over the stale render snapshot, so the write for the second
submission reverts the first. One notification per outcome is emitted (the
info toast plus one success toast per submission). The scheduled 3-second
purge captures the same stale snapshot, so firing it resets the store to
the two original pending records: the synced entry is not merely absent, it
reappears as pending. -/
theorem c1_sync_round_trip_code_bug :
    roundTripRun.offlineSubmissions.map Submission.status = [Status.pending, Status.synced] ∧
    statusOf roundTripRun.offlineSubmissions "1" = some Status.pending ∧
    roundTripRun.toasts.map Toast.type = [ToastType.info, ToastType.success, ToastType.success] ∧
    roundTripRun.timers.map Prod.snd
      = [TimerAction.expireToast "100", TimerAction.expireToast "101",
         TimerAction.expireToast "102", TimerAction.purgeSynced [subA, subB]] ∧
    (fireTimer true (TimerAction.purgeSynced [subA, subB]) roundTripRun).offlineSubmissions
      = [subA, subB] := by
  decide

/-- C2. The monotonicity claim fails on the code: in the round-trip run the
first submission reaches status synced after the first loop iteration, and
the very next status write — the syncing update for the second submission,
computed from the stale snapshot at line 173 — sets it back to pending, a
regression from synced to pending with no retry involved. The first
conjunct checks that the loop of the run is exactly the two recorded
iterations. -/
theorem c2_status_regression_code_bug :
    syncLoop [subA, subB] true (clockFrom 100) [subA, subB] 1 preToastState
      = syncStep [subA, subB] true 102 subB afterFirstIter ∧
    statusOf afterFirstIter.offlineSubmissions "1" = some Status.synced ∧
    statusOf (statusUpd [subA, subB] "2" Status.syncing) "1" = some Status.pending ∧
    statusOf (syncStep [subA, subB] true 102 subB afterFirstIter).offlineSubmissions "1"
      = some Status.pending := by
  decide

/-- C3 (amended). For every sequence of enqueue operations starting from an
empty store, offlineSubmissions holds exactly the enqueued records in
insertion order, each with status pending; and the ids — decimal strings of
the Date.now() readings — are pairwise distinct provided those strings are
pairwise distinct, which the code does not itself guarantee when two
enqueues fall in the same millisecond. -/
theorem c3_enqueue_spec (ok : Bool) (inps : List (Nat × FormData)) (σ : AppState)
    (h0 : σ.offlineSubmissions = [])
    (hids : (inps.map fun p => toString p.1).Pairwise (· ≠ ·)) :
    (enqueueAll ok inps σ).offlineSubmissions = inps.map (fun p => pendingSub p.1 p.2) ∧
    (∀ s ∈ (enqueueAll ok inps σ).offlineSubmissions, s.status = Status.pending) ∧
    ((enqueueAll ok inps σ).offlineSubmissions.map Submission.id).Pairwise (· ≠ ·) := by
  have h := enqueueAll_offlineSubmissions ok inps σ
  rw [h0, List.nil_append] at h
  refine ⟨h, ?_, ?_⟩
  · rw [h]
    intro s hs
    obtain ⟨p, _, rfl⟩ := List.mem_map.1 hs
    rfl
  · rw [h, List.map_map]
    exact hids

/-- C3 witness: two enqueues at readings 1 and 2 yield exactly the two
pending records with distinct ids. -/
theorem c3_enqueue_spec_witness :
    initialState.offlineSubmissions = [] ∧
    (([(1, sampleData), (2, sampleData)] : List (Nat × FormData)).map
        (fun p => toString p.1)).Pairwise (· ≠ ·) ∧
    ((enqueueAll true [(1, sampleData), (2, sampleData)] initialState).offlineSubmissions
        = [pendingSub 1 sampleData, pendingSub 2 sampleData] ∧
      (∀ s ∈ (enqueueAll true [(1, sampleData), (2, sampleData)] initialState).offlineSubmissions,
        s.status = Status.pending) ∧
      ((enqueueAll true [(1, sampleData), (2, sampleData)] initialState).offlineSubmissions.map
        Submission.id).Pairwise (· ≠ ·)) :=
  ⟨rfl, by decide, c3_enqueue_spec true _ initialState rfl (by decide)⟩

/-- C3 counterexample: two enqueues in the same millisecond (both Date.now()
readings equal to 5) are assigned the same id "5", refuting unconditional
pairwise uniqueness. -/
theorem c3_duplicate_ids_counterexample :
    ((enqueueAll true [(5, sampleData), (5, sampleData)] initialState).offlineSubmissions.map
        Submission.id = ["5", "5"]) ∧
    ¬ ((enqueueAll true [(5, sampleData), (5, sampleData)] initialState).offlineSubmissions.map
        Submission.id).Pairwise (· ≠ ·) :=
  ⟨by decide, by decide⟩

/-- C4. The exactly-once claim fails on the code: the component has no
in-flight guard of any kind. The first invocation snapshots the two-pending
store and iterates over ids 1 and 2; during its first simulated-API await
the store holds the syncing update for id 1, and a Sync Now click there
starts a second invocation whose snapshot still lists id 2 as pending, so
both loops iterate over — and submit, cycle and toast — submission 2:
processed twice, not once, and the second invocation is not a no-op. -/
theorem c4_overlap_double_processing_code_bug :
    syncProcessedIds [subA, subB] = ["1", "2"] ∧
    syncProcessedIds (statusUpd [subA, subB] "1" Status.syncing) = ["2"] ∧
    (syncProcessedIds [subA, subB]
        ++ syncProcessedIds (statusUpd [subA, subB] "1" Status.syncing)).count "2" = 2 := by
  decide

/-- C5. Empty-queue no-op: when no submission has status pending,
syncOfflineSubmissions returns before posting any toast or touching any
state — the whole component state, in-memory queue and persisted copy
included, is returned unchanged. -/
theorem c5_sync_empty_noop (ok : Bool) (times : Nat → Nat) (σ : AppState)
    (h : σ.offlineSubmissions.filter (fun s => s.status == Status.pending) = []) :
    syncOfflineSubmissions ok times σ = σ := by
  simp [syncOfflineSubmissions, h]

/-- C5 witness: a store holding only a failed submission has no pending
entries and the sync invocation leaves it untouched. -/
theorem c5_sync_empty_noop_witness :
    failedOnly.offlineSubmissions.filter (fun s => s.status == Status.pending) = [] ∧
    syncOfflineSubmissions true (clockFrom 0) failedOnly = failedOnly :=
  ⟨by decide, c5_sync_empty_noop true (clockFrom 0) failedOnly (by decide)⟩

/-- C6 (amended). validateForm returns the empty mapping exactly when first
and last name are non-blank after trimming whitespace and the email is
non-blank and matches the local@domain.tld pattern (the code trims the
name fields, so merely non-empty is not enough); and the scenario: with an
empty first name the mapping is exactly the required-first-name entry, the
submit handler creates no submission and posts only an error toast, none of
kind success. -/
theorem c6_validate_spec :
    (∀ fd : FormData, validateForm fd = [] ↔
      (jsTrim fd.firstName ≠ "" ∧ jsTrim fd.lastName ≠ "" ∧ jsTrim fd.email ≠ "" ∧
        emailRegexMatch fd.email = true)) ∧
    validateForm missingFirst = [("firstName", "First name is required")] ∧
    (handleSubmit true (clockFrom 0) true missingFirstState).offlineSubmissions
      = missingFirstState.offlineSubmissions ∧
    (handleSubmit true (clockFrom 0) true missingFirstState).toasts.map Toast.type
      = [ToastType.error] := by
  refine ⟨fun fd => ?_, by decide, by decide, by decide⟩
  unfold validateForm
  split_ifs <;> simp_all

/-- C6 counterexample: a first name consisting of one space is non-empty,
and the other fields satisfy the claimed conditions, yet validateForm
rejects the record — the claimed equivalence with plain non-emptiness is
false. -/
theorem c6_whitespace_counterexample :
    (wsFirst.firstName ≠ "" ∧ wsFirst.lastName ≠ "" ∧ wsFirst.email ≠ "" ∧
      emailRegexMatch wsFirst.email = true) ∧ validateForm wsFirst ≠ [] := by
  decide

/-- C7. Offline enqueue: when the component is offline and the form data
validates, handleSubmit appends exactly one pending submission built from
the form data, posts exactly one offline-kind toast, resets every form
field to empty, clears the submitting flag, and persists the new queue when
the localStorage write succeeds. -/
theorem c7_offline_submit (ok : Bool) (times : Nat → Nat) (isSuccess : Bool) (σ : AppState)
    (hon : σ.isOnline = false) (hval : validateForm σ.formData = []) :
    (handleSubmit ok times isSuccess σ).offlineSubmissions
      = σ.offlineSubmissions ++ [pendingSub (times 0) σ.formData] ∧
    (handleSubmit ok times isSuccess σ).toasts
      = σ.toasts ++ [mkToast (times 1) ToastType.offline
          "Form saved offline! Will sync when connection returns."] ∧
    (handleSubmit ok times isSuccess σ).formData = emptyFormData ∧
    (handleSubmit ok times isSuccess σ).isSubmitting = false ∧
    (handleSubmit ok times isSuccess σ).stored
      = (if ok then some (σ.offlineSubmissions ++ [pendingSub (times 0) σ.formData])
         else σ.stored) := by
  cases ok <;>
    simp [handleSubmit, hval, hon, saveOfflineSubmission, saveOfflineSubmissions,
      addToast, pendingSub, mkToast]

/-- C7 witness: the scenario record first name A, last name B, email
a@b.co submitted offline from the initial state. -/
theorem c7_offline_submit_witness :
    offlineReady.isOnline = false ∧ validateForm offlineReady.formData = [] ∧
    ((handleSubmit true (clockFrom 50) false offlineReady).offlineSubmissions
        = offlineReady.offlineSubmissions ++ [pendingSub (clockFrom 50 0) offlineReady.formData] ∧
      (handleSubmit true (clockFrom 50) false offlineReady).toasts
        = offlineReady.toasts ++ [mkToast (clockFrom 50 1) ToastType.offline
            "Form saved offline! Will sync when connection returns."] ∧
      (handleSubmit true (clockFrom 50) false offlineReady).formData = emptyFormData ∧
      (handleSubmit true (clockFrom 50) false offlineReady).isSubmitting = false ∧
      (handleSubmit true (clockFrom 50) false offlineReady).stored
        = (if true then some (offlineReady.offlineSubmissions
              ++ [pendingSub (clockFrom 50 0) offlineReady.formData])
           else offlineReady.stored)) :=
  ⟨rfl, by decide, c7_offline_submit true (clockFrom 50) false offlineReady rfl (by decide)⟩

/-- C8. Persistence-failure atomicity tradeoff: when the localStorage write
fails during enqueue, the failure is logged, the persisted copy stays as it
was, and the in-memory enqueue is not rolled back — the in-memory queue and
the returned id are the same as when the write succeeds, and no toast is
posted about the failure. -/
theorem c8_persist_failure_no_rollback (now : Nat) (d : FormData) (σ : AppState) :
    (saveOfflineSubmission false now d σ).1.offlineSubmissions
        = σ.offlineSubmissions ++ [pendingSub now d] ∧
    (saveOfflineSubmission false now d σ).1.stored = σ.stored ∧
    (saveOfflineSubmission false now d σ).1.errorLog
        = σ.errorLog ++ ["Error saving offline submissions"] ∧
    (saveOfflineSubmission false now d σ).1.offlineSubmissions
        = (saveOfflineSubmission true now d σ).1.offlineSubmissions ∧
    (saveOfflineSubmission false now d σ).1.toasts = σ.toasts ∧
    (saveOfflineSubmission false now d σ).2 = (saveOfflineSubmission true now d σ).2 := by
  simp [saveOfflineSubmission, saveOfflineSubmissions, pendingSub]

/-- C9 (amended). Toast lifecycle at distinct creation readings: each post
appends exactly one entry, schedules the removal of its own id 5000 ms
after its creation, and — provided the two creation readings yield distinct
id strings, which the code does not guarantee within one millisecond —
firing the expiry of the first entry removes exactly the entries carrying
its id and retains the second entry, identical kind and message
notwithstanding. -/
theorem c9_toast_lifecycle (σ : AppState) (ok : Bool) (t1 t2 : Nat) (k1 k2 : ToastType)
    (m1 m2 : String) (hne : toString t1 ≠ toString t2) :
    (addToast t1 k1 m1 σ).toasts = σ.toasts ++ [mkToast t1 k1 m1] ∧
    (addToast t1 k1 m1 σ).timers
      = σ.timers ++ [(t1 + 5000, TimerAction.expireToast (toString t1))] ∧
    (addToast t2 k2 m2 (addToast t1 k1 m1 σ)).toasts
      = (addToast t1 k1 m1 σ).toasts ++ [mkToast t2 k2 m2] ∧
    (fireTimer ok (TimerAction.expireToast (toString t1))
        (addToast t2 k2 m2 (addToast t1 k1 m1 σ))).toasts
      = σ.toasts.filter (fun t => !(t.id == toString t1)) ++ [mkToast t2 k2 m2] := by
  refine ⟨rfl, rfl, rfl, ?_⟩
  simp [addToast, fireTimer, mkToast, List.filter_append, Ne.symm hne]

/-- C9 witness: identical info toasts posted at readings 1 and 2; the
expiry of the first leaves exactly the second. -/
theorem c9_toast_lifecycle_witness :
    (toString (1 : Nat) ≠ toString (2 : Nat)) ∧
    ((addToast 1 ToastType.info "x" initialState).toasts
        = initialState.toasts ++ [mkToast 1 ToastType.info "x"] ∧
      (addToast 1 ToastType.info "x" initialState).timers
        = initialState.timers ++ [(1 + 5000, TimerAction.expireToast (toString (1 : Nat)))] ∧
      (addToast 2 ToastType.info "x" (addToast 1 ToastType.info "x" initialState)).toasts
        = (addToast 1 ToastType.info "x" initialState).toasts ++ [mkToast 2 ToastType.info "x"] ∧
      (fireTimer true (TimerAction.expireToast (toString (1 : Nat)))
          (addToast 2 ToastType.info "x" (addToast 1 ToastType.info "x" initialState))).toasts
        = initialState.toasts.filter (fun t => !(t.id == toString (1 : Nat)))
            ++ [mkToast 2 ToastType.info "x"]) :=
  ⟨by decide,
   c9_toast_lifecycle initialState true 1 2 ToastType.info ToastType.info "x" "x" (by decide)⟩

/-- C9 counterexample: two identical toasts posted within the same
millisecond share the id "7"; both entries are created, but firing the
expiry timer of the first removes both — the retraction of one notification
is not independent of the other, refuting the claim as stated. -/
theorem c9_same_ms_counterexample :
    sameMsToasts.toasts = [mkToast 7 ToastType.info "x", mkToast 7 ToastType.info "x"] ∧
    (fireTimer true (TimerAction.expireToast (toString (7 : Nat))) sameMsToasts).toasts = [] := by
  decide

/-- C10. Clear Form frame property: the handler resets every form field to
the empty string and empties the error mapping while leaving the offline
submission queue, its persisted copy, the active toasts, the scheduled
timers and the connectivity flag unchanged. -/
theorem c10_clear_form_frame (σ : AppState) :
    (clearForm σ).formData = emptyFormData ∧ (clearForm σ).errors = [] ∧
    (clearForm σ).offlineSubmissions = σ.offlineSubmissions ∧
    (clearForm σ).stored = σ.stored ∧ (clearForm σ).toasts = σ.toasts ∧
    (clearForm σ).timers = σ.timers ∧ (clearForm σ).isOnline = σ.isOnline :=
  ⟨rfl, rfl, rfl, rfl, rfl, rfl, rfl⟩

end PwaForm
